import Mathlib

/-!
Verification of the XNoteBook document-to-searchable-PDF pipeline
(src/app.py) against its natural-language specification.

The pipeline's pure logic is shallowly embedded: Python floats are
modelled as exact rationals, Python ints as integers, and the fallible
external calls (tesseract, PyMuPDF page building and saving, filesystem
operations, the SQLite status writes) as explicit `Except`/oracle
parameters, so that each function's control flow is reproduced faithfully.
-/

namespace XNoteBook

/-! ## OCR Engine Adapter (`ocr_with_boxes`, src/app.py lines 265-311) -/

/-- One raw detection row of the tesseract `image_to_data` dictionary:
native confidence (0-100 scale, possibly fractional), recognized text,
and the axis-aligned rectangle `left, top, width, height` in pixels
(src/app.py lines 282-289). -/
structure Detection where
  conf : ℚ
  text : String
  left : ℤ
  top : ℤ
  width : ℤ
  height : ℤ
deriving DecidableEq

/-- Python `int()` applied to a number: truncation toward zero,
which for a rational is `q.num.tdiv q.den` (src/app.py line 286). -/
def pyInt (q : ℚ) : ℤ := q.num.tdiv (q.den : ℤ)

/-- Python `str.strip()`: remove leading and trailing whitespace
(src/app.py line 287). -/
def pyStrip (s : String) : String :=
  ⟨((s.data.dropWhile Char.isWhitespace).reverse.dropWhile Char.isWhitespace).reverse⟩

/-- A quadrilateral bounding box as the four corner points
top-left, top-right, bottom-right, bottom-left (src/app.py lines 292-297). -/
structure BBox where
  tl : ℚ × ℚ
  tr : ℚ × ℚ
  br : ℚ × ℚ
  bl : ℚ × ℚ
deriving DecidableEq

/-- A Text Block as built by `ocr_with_boxes`: bounding box, stripped
text, and confidence normalized to the 0-1 scale (src/app.py lines 299-303). -/
structure Block where
  bbox : BBox
  text : String
  confidence : ℚ
deriving DecidableEq

/-- Conversion of one kept detection into a Text Block: the `(x, y, w, h)`
rectangle becomes the clockwise 4-corner box
`[(x,y), (x+w,y), (x+w,y+h), (x,y+h)]`, the text is the stripped text, and
the native confidence is divided by 100 (src/app.py lines 289-303). -/
def detectionToBlock (d : Detection) : Block :=
  { bbox :=
      { tl := ((d.left : ℚ), (d.top : ℚ))
        tr := (((d.left + d.width : ℤ) : ℚ), (d.top : ℚ))
        br := (((d.left + d.width : ℤ) : ℚ), ((d.top + d.height : ℤ) : ℚ))
        bl := ((d.left : ℚ), ((d.top + d.height : ℤ) : ℚ)) }
    text := pyStrip d.text
    confidence := d.conf / 100 }

/-- The filtering loop of `ocr_with_boxes` (src/app.py lines 284-303):
a detection is appended when `int(conf) > 30` and its stripped text is
non-empty, in detection order. -/
def ocrBlocks : List Detection → List Block
  | [] => []
  | d :: rest =>
    if 30 < pyInt d.conf then
      if pyStrip d.text = ("") then ocrBlocks rest
      else detectionToBlock d :: ocrBlocks rest
    else ocrBlocks rest

/-- Observable outcome of one `ocr_with_boxes` call: the returned blocks
(or the propagated exception), and whether the `os.remove` of the
preprocessed derived image was ever attempted. -/
structure OcrRun where
  result : Except String (List Block)
  removeAttempted : Bool

/-- `ocr_with_boxes` (src/app.py lines 265-311).  `tess` is the outcome of
the `pytesseract.image_to_data` call on the preprocessed image (it raises
on a recognizer failure); `removeFails` says whether the final
`os.remove(processed_path)` would itself fail.  The remove sits after the
tesseract call with no `try/finally` around that call, so it only runs
when the call returned; the remove itself is wrapped in
`try: ... except: pass`, so its own failure (`removeFails`) influences
nothing. -/
def ocr_with_boxes (tess : Except String (List Detection)) (removeFails : Bool) : OcrRun :=
  match tess with
  | Except.error e => { result := Except.error e, removeAttempted := false }
  | Except.ok data =>
    { result := Except.ok (ocrBlocks data), removeAttempted := true }

/-! ## PDF Compositor (`create_searchable_pdf`, src/app.py lines 314-370) -/

/-- One invisible text run inserted by `page.insert_text`
(src/app.py lines 352-359): baseline point, text, font size, font name,
PDF text-render mode, and the overlay flag. -/
structure TextRun where
  pos : ℚ × ℚ
  text : String
  fontsize : ℚ
  fontname : String
  render_mode : ℕ
  overlay : Bool
deriving DecidableEq

/-- Per-block body of the text-layer loop (src/app.py lines 333-359):
`x1, y1` are the top-left corner, `y2` the bottom-right corner's y;
`font_size = max(6.0, min(40.0, y2 - y1))`; the block is skipped when the
text is empty or the font size is ≤ 0, otherwise one invisible run is
inserted at `(x1, y2)` in the `helv` font with `render_mode=3` and
`overlay=True`.  (A per-block `insert_text` exception is caught and merely
skips the block in the source; the insertion itself is modelled as
succeeding.) -/
def blockRun (b : Block) : Option TextRun :=
  if b.text = ("") ∨ max 6 (min 40 (b.bbox.br.2 - b.bbox.tl.2)) ≤ 0 then none
  else
    some { pos := (b.bbox.tl.1, b.bbox.br.2)
           text := b.text
           fontsize := max 6 (min 40 (b.bbox.br.2 - b.bbox.tl.2))
           fontname := ("helv")
           render_mode := 3
           overlay := true }

/-- One page raster image on disk: its path and its pixel dimensions. -/
structure PageRaster where
  path : String
  width : ℕ
  height : ℕ
deriving DecidableEq

/-- One output PDF page: its dimensions in points, the full-page
background image, and the inserted invisible text runs. -/
structure PdfPage where
  width : ℚ
  height : ℚ
  background : String
  runs : List TextRun
deriving DecidableEq

/-- One iteration of the page loop of `create_searchable_pdf`
(src/app.py lines 318-359): a new page sized `float(width) × float(height)`
of the raster, the raster inserted over the whole page rectangle, and the
runs produced by the per-block loop. -/
def compositePage (img : PageRaster) (blocks : List Block) : PdfPage :=
  { width := (img.width : ℚ)
    height := (img.height : ℚ)
    background := img.path
    runs := blocks.filterMap blockRun }

/-- `create_searchable_pdf` (src/app.py lines 314-370): one page per
element of `zip(image_paths, all_blocks)`, in order. -/
def create_searchable_pdf (imgs : List PageRaster) (allBlocks : List (List Block)) :
    List PdfPage :=
  (imgs.zip allBlocks).map (fun pr => compositePage pr.1 pr.2)

/-! ## Rasterizer (`input_to_images`, non-PDF branch, src/app.py lines 248-262) -/

/-- The `max_dimension = 3000` cap of `input_to_images` (src/app.py line 251). -/
def max_dimension : ℕ := 3000

/-- Python `int(dim * ratio)` where `ratio = max_dimension / m`: for the
non-negative values involved, truncation coincides with the floor
(src/app.py lines 254-255). -/
def scaledDim (d m : ℕ) : ℕ :=
  (Int.floor ((d : ℚ) * ((max_dimension : ℚ) / (m : ℚ)))).toNat

/-- Result of the non-PDF branch of `input_to_images`: the returned image
paths (with their dimensions), the new files written, and the resampling
filter used if a resize happened. -/
structure ImageConvResult where
  images : List PageRaster
  written : List String
  resampleUsed : Option String
deriving DecidableEq

/-- Non-PDF branch of `input_to_images` (src/app.py lines 248-262): when
`max(img.size) > max_dimension`, save a single resized JPEG copy with
`Image.Resampling.LANCZOS`, both dimensions multiplied by
`ratio = max_dimension / max(img.size)` and truncated; otherwise append
the original path unchanged and write nothing. -/
def input_to_images_image (p : PageRaster) : ImageConvResult :=
  if max_dimension < max p.width p.height then
    { images := [{ path := p.path ++ ("_resized.jpg")
                   width := scaledDim p.width (max p.width p.height)
                   height := scaledDim p.height (max p.width p.height) }]
      written := [p.path ++ ("_resized.jpg")]
      resampleUsed := some ("LANCZOS") }
  else { images := [p], written := [], resampleUsed := none }

/-! ## Job status sink (`update_upload_status`, src/app.py lines 184-199) -/

/-- The arguments of one `update_upload_status` call. -/
structure UpdateCall where
  job_id : String
  status : String
  error_message : Option String
  processing_time : Option ℚ
deriving DecidableEq

/-- Observable outcome of one `update_upload_status` call: whether an
exception left the function, and whether the row was actually written. -/
structure UpdateResult where
  raised : Bool
  stored : Bool
deriving DecidableEq

/-- `update_upload_status` (src/app.py lines 184-199): the whole body sits
in `try: ... except Exception as e: print(...)`, so a database failure
(`db = Except.error _`) is swallowed and nothing is stored; no exception
ever propagates. -/
def update_upload_status (c : UpdateCall) (db : Except String Unit) : UpdateResult :=
  match db with
  | Except.ok _ => { raised := false, stored := true }
  | Except.error _ => { raised := false, stored := false }

/-! ## Pipeline Orchestrator (`process_document`, src/app.py lines 373-426) -/

/-- The fallible external steps one `process_document` run depends on:
the rasterization result, the per-page OCR outcome (indexed by page
number; `ocr_with_boxes` raises out of the page loop on the first failing
page), the `create_searchable_pdf` save, the `os.path.getsize` of the
output file, the database used by the status write, and the elapsed
wall-clock seconds. -/
structure JobEnv where
  rasterize : Except String (List PageRaster)
  ocr : ℕ → Except String (List Block)
  composite : Except String Unit
  getsize : Except String ℚ
  statusDb : Except String Unit
  elapsed : ℚ

/-- The page loop of `process_document` (src/app.py lines 388-393): run
OCR on each page in order, collecting the block lists; the first page
whose OCR raises aborts the loop with that exception. -/
def runOcrPages (ocr : ℕ → Except String (List Block)) :
    List PageRaster → ℕ → Except String (List (List Block))
  | [], _ => Except.ok []
  | _ :: rest, i =>
    match ocr i with
    | Except.error e => Except.error e
    | Except.ok bs =>
      match runOcrPages ocr rest (i + 1) with
      | Except.error e => Except.error e
      | Except.ok others => Except.ok (bs :: others)

/-- Whether every stage of the pipeline succeeds for this environment. -/
def jobAllOk (env : JobEnv) : Bool :=
  match env.rasterize with
  | Except.error _ => false
  | Except.ok images =>
    match runOcrPages env.ocr images 0 with
    | Except.error _ => false
    | Except.ok _ =>
      match env.composite with
      | Except.error _ => false
      | Except.ok _ =>
        match env.getsize with
        | Except.error _ => false
        | Except.ok _ => true

/-- Observable outcome of one `process_document` run: the
`update_upload_status` calls made, whether the final status write reached
the database, the `os.remove` attempts on intermediate rasters, and the
boolean return value. -/
structure JobOutcome where
  statusWrites : List UpdateCall
  statusStored : Bool
  removalsAttempted : List String
  returnValue : Bool

/-- The `except` branch of `process_document` (src/app.py lines 421-426):
one `failed` status write carrying `str(e)` and the elapsed time, no
raster cleanup, return `False`. -/
def failedOutcome (job_id e : String) (env : JobEnv) : JobOutcome :=
  { statusWrites := [{ job_id := job_id, status := ("failed"),
                       error_message := some e, processing_time := some env.elapsed }]
    statusStored := (update_upload_status
      { job_id := job_id, status := ("failed"),
        error_message := some e, processing_time := some env.elapsed } env.statusDb).stored
    removalsAttempted := []
    returnValue := false }

/-- `process_document` (src/app.py lines 373-426): rasterize, OCR each
page, composite, stat the output file, delete every raster that is not
the original input (each delete wrapped in `try/except pass`), write the
`completed` status, return `True`; any exception up to and including the
`getsize` jumps to the `except` branch, which writes `failed` and returns
`False` without touching the rasters. -/
def process_document (input_path job_id : String) (env : JobEnv) : JobOutcome :=
  match env.rasterize with
  | Except.error e => failedOutcome job_id e env
  | Except.ok images =>
    match runOcrPages env.ocr images 0 with
    | Except.error e => failedOutcome job_id e env
    | Except.ok _ =>
      match env.composite with
      | Except.error e => failedOutcome job_id e env
      | Except.ok _ =>
        match env.getsize with
        | Except.error e => failedOutcome job_id e env
        | Except.ok _ =>
          { statusWrites := [{ job_id := job_id, status := ("completed"),
                               error_message := none, processing_time := some env.elapsed }]
            statusStored := (update_upload_status
              { job_id := job_id, status := ("completed"),
                error_message := none, processing_time := some env.elapsed } env.statusDb).stored
            removalsAttempted :=
              (images.filter (fun r => r.path ≠ input_path)).map (fun r => r.path)
            returnValue := true }

/-! ## Specification-side definitions and concrete sample inputs -/

/-- Modelled from the spec (section 4.4): `clamp(v, min=lo, max=hi)`. -/
def clampSpec (v lo hi : ℚ) : ℚ := if v < lo then lo else if hi < v then hi else v

/-- A detection at exactly the native confidence threshold 30. -/
def detConf30 : Detection :=
  { conf := 30, text := ("hello"), left := 0, top := 0, width := 10, height := 10 }

/-- A detection with native confidence 45 (the spec's normalization scenario). -/
def detConf45 : Detection :=
  { conf := 45, text := ("x"), left := 0, top := 0, width := 5, height := 5 }

/-- An arbitrary kept detection, for the bounding-box normalization witness. -/
def detSample : Detection :=
  { conf := 80, text := ("abc"), left := 3, top := 4, width := 10, height := 20 }

/-- A Text Block with a degenerate bounding box, `y2 - y1 = 0`, and
non-empty text. -/
def degenerateBlock : Block :=
  { bbox := { tl := (10, 10), tr := (110, 10), br := (110, 10), bl := (10, 10) }
    text := ("word"), confidence := 9/10 }

/-- The spec's compositor scenario block: bbox
`[[10,10],[110,10],[110,30],[10,30]]`, text `Invoice`, confidence 0.92. -/
def invoiceBlock : Block :=
  { bbox := { tl := (10, 10), tr := (110, 10), br := (110, 30), bl := (10, 30) }
    text := ("Invoice"), confidence := 23/25 }

/-- Two sample page rasters for the compositor witness. -/
def rasterA : PageRaster := { path := ("page1.jpg"), width := 100, height := 200 }

/-- Second sample page raster. -/
def rasterB : PageRaster := { path := ("page2.jpg"), width := 50, height := 60 }

/-- A non-PDF input image within the 3000-pixel cap. -/
def smallImage : PageRaster := { path := ("small.png"), width := 2000, height := 1000 }

/-- A non-PDF input image exceeding the 3000-pixel cap. -/
def bigImage : PageRaster := { path := ("big.png"), width := 6000, height := 1500 }

/-- An environment in which every pipeline stage succeeds, with one
intermediate page raster distinct from the input path. -/
def envAllOk : JobEnv :=
  { rasterize := Except.ok [{ path := ("in_page_0.jpg"), width := 4, height := 5 }]
    ocr := fun _ => Except.ok []
    composite := Except.ok ()
    getsize := Except.ok 1
    statusDb := Except.ok ()
    elapsed := 1 }

/-- An environment in which page 0's OCR call raises. -/
def envOcrFails : JobEnv :=
  { rasterize := Except.ok [{ path := ("in_page_0.jpg"), width := 4, height := 5 }]
    ocr := fun _ => Except.error ("OcrEngineError: recognizer failure")
    composite := Except.ok ()
    getsize := Except.ok 1
    statusDb := Except.ok ()
    elapsed := 1 }

/-- An environment in which the pipeline succeeds but the database write
of the terminal status fails. -/
def envDbFails : JobEnv :=
  { rasterize := Except.ok []
    ocr := fun _ => Except.ok []
    composite := Except.ok ()
    getsize := Except.ok 1
    statusDb := Except.error ("database is locked")
    elapsed := 2 }

/-! ## Helper lemmas -/

/-- Every block returned by the `ocr_with_boxes` filtering loop is the
conversion of some input detection. -/
theorem ocrBlocks_mem {ds : List Detection} {b : Block} (hb : b ∈ ocrBlocks ds) :
    ∃ d ∈ ds, b = detectionToBlock d := by
  induction ds with
  | nil => simp [ocrBlocks] at hb
  | cons d rest ih =>
    simp only [ocrBlocks] at hb
    split_ifs at hb with h1 h2
    · obtain ⟨d2, hd2, hbd⟩ := ih hb
      exact ⟨d2, List.mem_cons_of_mem _ hd2, hbd⟩
    · rcases List.mem_cons.mp hb with hbd | hbmem
      · exact ⟨d, List.mem_cons_self _ _, hbd⟩
      · obtain ⟨d2, hd2, hbd⟩ := ih hbmem
        exact ⟨d2, List.mem_cons_of_mem _ hd2, hbd⟩
    · obtain ⟨d2, hd2, hbd⟩ := ih hb
      exact ⟨d2, List.mem_cons_of_mem _ hd2, hbd⟩

/-- The compositor's `max(6.0, min(40.0, v))` agrees with the spec's
clamp to `[6, 40]`. -/
theorem max_min_eq_clampSpec (v : ℚ) : max 6 (min 40 v) = clampSpec v 6 40 := by
  rcases lt_or_le v 6 with h | h
  · rw [clampSpec, if_pos h, max_eq_left (min_le_of_right_le h.le)]
  · rcases le_or_lt v 40 with h2 | h2
    · rw [clampSpec, if_neg (not_lt.mpr h), if_neg (not_lt.mpr h2),
        min_eq_right h2, max_eq_right h]
    · rw [clampSpec, if_neg (not_lt.mpr h), if_pos h2, min_eq_left h2.le,
        max_eq_right (by norm_num)]

/-- A dimension of the image, scaled by `max_dimension / m` for the
image's larger dimension `m`, never exceeds `max_dimension`. -/
theorem scaledDim_le (d m : ℕ) (hd : d ≤ m) (hm : max_dimension < m) :
    scaledDim d m ≤ max_dimension := by
  have hm0 : (0:ℚ) < (m : ℚ) := by
    have h1 : 0 < m := lt_trans (by norm_num [max_dimension]) hm
    exact_mod_cast h1
  have hdm : (d : ℚ) ≤ (m : ℚ) := by exact_mod_cast hd
  have hcap0 : (0:ℚ) ≤ ((max_dimension : ℕ) : ℚ) := by positivity
  have hq : (d : ℚ) * (((max_dimension : ℕ) : ℚ) / (m : ℚ)) ≤ ((max_dimension : ℕ) : ℚ) := by
    rw [← mul_div_assoc, div_le_iff₀ hm0]
    nlinarith
  have hfloor : Int.floor ((d : ℚ) * (((max_dimension : ℕ) : ℚ) / (m : ℚ)))
      ≤ (max_dimension : ℤ) := by
    have h2 := Int.floor_mono hq
    simpa using h2
  simp only [scaledDim]
  exact Int.toNat_le.mpr hfloor

/-! ## Claim theorems -/

/-- C4 counterexample: a detection at exactly native confidence 30 with
non-empty text is discarded by `ocr_with_boxes` (the source tests
`int(conf) > 30` strictly), although the claim says a detection at the
threshold is kept. -/
theorem c4_counterexample : ocrBlocks [detConf30] = [] := by
  have h : ¬ 30 < pyInt detConf30.conf := by decide
  simp [ocrBlocks, h]

/-- C4 (amended): the adapter's output consists of exactly those
detections whose truncated native confidence is strictly greater than 30
and whose stripped text is non-empty, converted to Text Blocks in
detection order with no sort imposed. -/
theorem c4_filter (ds : List Detection) :
    ocrBlocks ds
      = (ds.filter
          (fun d => decide (30 < pyInt d.conf) && !decide (pyStrip d.text = ("")))).map
          detectionToBlock := by
  induction ds with
  | nil => rfl
  | cons d rest ih =>
    by_cases h1 : 30 < pyInt d.conf
    · by_cases h2 : pyStrip d.text = ("")
      · simp [ocrBlocks, List.filter_cons, h1, h2, ih]
      · simp [ocrBlocks, List.filter_cons, h1, h2, ih]
    · simp [ocrBlocks, List.filter_cons, h1, ih]

/-- C7: every emitted Text Block carries the native confidence of its
detection divided by 100; under the engine's 0-100 native scale this
normalized confidence lies in `[0, 1]`. -/
theorem c7_confidence (ds : List Detection)
    (hds : ∀ d ∈ ds, 0 ≤ d.conf ∧ d.conf ≤ 100)
    (b : Block) (hb : b ∈ ocrBlocks ds) :
    (∃ d ∈ ds, b.confidence = d.conf / 100)
    ∧ 0 ≤ b.confidence ∧ b.confidence ≤ 1 := by
  obtain ⟨d, hd, rfl⟩ := ocrBlocks_mem hb
  obtain ⟨h0, h100⟩ := hds d hd
  simp only [detectionToBlock]
  refine ⟨⟨d, hd, rfl⟩, div_nonneg h0 (by norm_num), ?_⟩
  rw [div_le_one (by norm_num)]
  linarith

/-- C7 witness: the detection with native confidence 45 is kept and its
stored confidence is `45 / 100 = 9/20 = 0.45`, inside `[0, 1]`. -/
theorem c7_witness :
    ((∃ d ∈ [detConf45], (detectionToBlock detConf45).confidence = d.conf / 100)
      ∧ 0 ≤ (detectionToBlock detConf45).confidence
      ∧ (detectionToBlock detConf45).confidence ≤ 1)
    ∧ (detectionToBlock detConf45).confidence = 9/20 := by
  constructor
  · refine c7_confidence [detConf45] ?_ (detectionToBlock detConf45) ?_
    · intro d hd
      rw [List.mem_singleton] at hd
      subst hd
      constructor <;> norm_num [detConf45]
    · have h1 : 30 < pyInt detConf45.conf := by decide
      have h2 : ¬ pyStrip detConf45.text = ("") := by decide
      simp [ocrBlocks, h1, h2]
  · norm_num [detectionToBlock, detConf45]

/-- C8: every emitted Text Block's bounding box is the clockwise 4-point
normalization `[(x,y), (x+w,y), (x+w,y+h), (x,y+h)]` of the engine's
axis-aligned rectangle `(x, y, w, h)`. -/
theorem c8_bbox (ds : List Detection) (b : Block) (hb : b ∈ ocrBlocks ds) :
    ∃ d ∈ ds, b.bbox
      = { tl := ((d.left : ℚ), (d.top : ℚ))
          tr := (((d.left + d.width : ℤ) : ℚ), (d.top : ℚ))
          br := (((d.left + d.width : ℤ) : ℚ), ((d.top + d.height : ℤ) : ℚ))
          bl := ((d.left : ℚ), ((d.top + d.height : ℤ) : ℚ)) } := by
  obtain ⟨d, hd, rfl⟩ := ocrBlocks_mem hb
  exact ⟨d, hd, rfl⟩

/-- C8 witness: the sample rectangle `(3, 4, 10, 20)` is normalized to
the 4-corner form. -/
theorem c8_witness :
    ∃ d ∈ [detSample], (detectionToBlock detSample).bbox
      = { tl := ((d.left : ℚ), (d.top : ℚ))
          tr := (((d.left + d.width : ℤ) : ℚ), (d.top : ℚ))
          br := (((d.left + d.width : ℤ) : ℚ), ((d.top + d.height : ℤ) : ℚ))
          bl := ((d.left : ℚ), ((d.top + d.height : ℤ) : ℚ)) } := by
  refine c8_bbox [detSample] (detectionToBlock detSample) ?_
  have h1 : 30 < pyInt detSample.conf := by decide
  have h2 : ¬ pyStrip detSample.text = ("") := by decide
  simp [ocrBlocks, h1, h2]

/-- C1 counterexample: a Text Block whose bounding box has `y2 - y1 = 0`
but whose text is non-empty is NOT skipped: the clamp has already raised
the computed font size to 6 before the `font_size <= 0` test, so an
invisible text run IS rendered for the degenerate block. -/
theorem c1_counterexample :
    blockRun degenerateBlock
      = some { pos := (10, 10), text := ("word"), fontsize := 6,
               fontname := ("helv"), render_mode := 3, overlay := true } := by
  have hv : max 6 (min 40 ((10:ℚ) - 10)) = 6 :=
    max_eq_left (min_le_of_right_le (by norm_num))
  have hcnot : ¬ ((("word") : String) = ("") ∨ (6:ℚ) ≤ 0) := by
    rintro (hc | hc)
    · exact absurd hc (by decide)
    · norm_num at hc
  simp only [blockRun, degenerateBlock, hv]
  rw [if_neg hcnot]

/-- C1 (amended): in `create_searchable_pdf` the computed font size is
always at least 6 (the clamp precedes the skip test, so the
`font_size <= 0` arm never fires), hence a block is skipped iff its text
is empty; a degenerate box with non-empty text is rendered at the clamped
minimum size and processing it does not raise. -/
theorem c1_skip_iff (b : Block) :
    (blockRun b = none ↔ b.text = (""))
    ∧ (∀ r : TextRun, blockRun b = some r → (6:ℚ) ≤ r.fontsize) := by
  have h6 : (0:ℚ) < max 6 (min 40 (b.bbox.br.2 - b.bbox.tl.2)) :=
    lt_of_lt_of_le (by norm_num) (le_max_left _ _)
  have hcond :
      (b.text = ("") ∨ max 6 (min 40 (b.bbox.br.2 - b.bbox.tl.2)) ≤ 0) ↔ b.text = ("") := by
    constructor
    · rintro (h | h)
      · exact h
      · exact absurd h (not_le.mpr h6)
    · exact Or.inl
  constructor
  · simp only [blockRun]
    split_ifs with hc
    · exact iff_of_true rfl (hcond.mp hc)
    · exact iff_of_false (by simp) fun ht => hc (Or.inl ht)
  · intro r hr
    simp only [blockRun] at hr
    by_cases hc : b.text = ("") ∨ max 6 (min 40 (b.bbox.br.2 - b.bbox.tl.2)) ≤ 0
    · rw [if_pos hc] at hr
      exact absurd hr (by simp)
    · rw [if_neg hc] at hr
      injection hr with h
      rw [← h]
      exact le_max_left _ _

/-- C1 witness: the amended theorem applied to the degenerate block — its
rendered run exists and has font size at least 6. -/
theorem c1_witness :
    blockRun degenerateBlock
        = some { pos := (10, 10), text := ("word"), fontsize := 6,
                 fontname := ("helv"), render_mode := 3, overlay := true }
    ∧ (6:ℚ) ≤ ({ pos := (10, 10), text := ("word"), fontsize := 6,
                 fontname := ("helv"), render_mode := 3,
                 overlay := true } : TextRun).fontsize := by
  have heval : blockRun degenerateBlock
      = some { pos := (10, 10), text := ("word"), fontsize := 6,
               fontname := ("helv"), render_mode := 3, overlay := true } := by
    have hv : max 6 (min 40 ((10:ℚ) - 10)) = 6 :=
      max_eq_left (min_le_of_right_le (by norm_num))
    have hcnot : ¬ ((("word") : String) = ("") ∨ (6:ℚ) ≤ 0) := by
      rintro (hc | hc)
      · exact absurd hc (by decide)
      · norm_num at hc
    simp only [blockRun, degenerateBlock, hv]
    rw [if_neg hcnot]
  exact ⟨heval, (c1_skip_iff degenerateBlock).2 _ heval⟩

/-- C5: every Text Block with non-empty text produces exactly one
invisible text run: baseline at `(x1, y2)`, font size
`clamp(y2 - y1, 6, 40)`, the sans-serif base-14 `helv` font, PDF
text-render mode 3 (Invisible), inserted with `overlay=True` above the
background image. -/
theorem c5_render (b : Block) (h : b.text ≠ ("")) :
    blockRun b
      = some { pos := (b.bbox.tl.1, b.bbox.br.2), text := b.text,
               fontsize := clampSpec (b.bbox.br.2 - b.bbox.tl.2) 6 40,
               fontname := ("helv"), render_mode := 3, overlay := true } := by
  have h6 : (0:ℚ) < max 6 (min 40 (b.bbox.br.2 - b.bbox.tl.2)) :=
    lt_of_lt_of_le (by norm_num) (le_max_left _ _)
  simp only [blockRun]
  rw [if_neg, max_min_eq_clampSpec]
  rintro (hc | hc)
  · exact h hc
  · exact absurd hc (not_le.mpr h6)

/-- C5 witness: the spec scenario — block with bbox
`[[10,10],[110,10],[110,30],[10,30]]` and text `Invoice` yields one
invisible run `Invoice` at baseline `(10, 30)` with font size 20. -/
theorem c5_witness :
    blockRun invoiceBlock
      = some { pos := (10, 30), text := ("Invoice"), fontsize := 20,
               fontname := ("helv"), render_mode := 3, overlay := true } := by
  have h := c5_render invoiceBlock (by decide)
  rw [h]
  norm_num [invoiceBlock, clampSpec]

/-- C6: for N page rasters (paired with their block lists), the output
has exactly N pages, in the same order, each page's width and height
equal to the raster's pixel dimensions (1 pixel to 1 point) and the
raster placed as the page's background image. -/
theorem c6_pages (imgs : List PageRaster) (allBlocks : List (List Block))
    (h : imgs.length = allBlocks.length) :
    (create_searchable_pdf imgs allBlocks).length = imgs.length
    ∧ (create_searchable_pdf imgs allBlocks).map
        (fun pg => (pg.width, pg.height, pg.background))
      = imgs.map (fun im => ((im.width : ℚ), (im.height : ℚ), im.path)) := by
  induction imgs generalizing allBlocks with
  | nil => simp [create_searchable_pdf]
  | cons a rest ih =>
    cases allBlocks with
    | nil => simp at h
    | cons bs bss =>
      obtain ⟨ih1, ih2⟩ := ih bss (by simpa using h)
      constructor
      · simpa [create_searchable_pdf] using ih1
      · simpa [create_searchable_pdf, compositePage] using ih2

/-- C6 witness: two rasters produce two pages with the rasters'
dimensions and paths, in order. -/
theorem c6_witness :
    (create_searchable_pdf [rasterA, rasterB] [[], []]).length = [rasterA, rasterB].length
    ∧ (create_searchable_pdf [rasterA, rasterB] [[], []]).map
        (fun pg => (pg.width, pg.height, pg.background))
      = [rasterA, rasterB].map (fun im => ((im.width : ℚ), (im.height : ℚ), im.path)) :=
  c6_pages [rasterA, rasterB] [[], []] rfl

/-- C2 counterexample: a fully successful job writes exactly one status,
`completed` — no `processing` status write ever occurs, refuting the
claimed transition to `processing` when the Orchestrator begins. -/
theorem c2_counterexample :
    ((process_document ("doc.pdf") ("job-1") envAllOk).statusWrites.map UpdateCall.status)
      = [("completed")] := rfl

/-- C2 (amended): each `process_document` run performs exactly one status
write, which is `completed` or `failed` (never `processing`): `completed`
exactly when every stage succeeded — in particular only if the Compositor
save succeeded — and `failed`, carrying an error message, on any stage
failure; the elapsed time is recorded either way. -/
theorem c2_status (input_path job_id : String) (env : JobEnv) :
    ∃ c : UpdateCall,
      (process_document input_path job_id env).statusWrites = [c]
      ∧ (c.status = ("completed") ∨ c.status = ("failed"))
      ∧ (c.status = ("completed") ↔ jobAllOk env = true)
      ∧ (c.status = ("completed") → env.composite = Except.ok ())
      ∧ (c.status = ("failed") → c.error_message.isSome = true)
      ∧ c.processing_time = some env.elapsed := by
  have hfc : ¬ ((("failed") : String) = ("completed")) := by decide
  have hcf : ¬ ((("completed") : String) = ("failed")) := by decide
  rcases henv : env.rasterize with e | images
  · exact ⟨{ job_id := job_id, status := ("failed"),
               error_message := some e, processing_time := some env.elapsed },
      by simp [process_document, henv, failedOutcome], Or.inr rfl,
      iff_of_false hfc (by simp [jobAllOk, henv]),
      fun hco => absurd hco hfc, fun _ => rfl, rfl⟩
  · rcases hocr : runOcrPages env.ocr images 0 with e | allBlocks
    · exact ⟨{ job_id := job_id, status := ("failed"),
                 error_message := some e, processing_time := some env.elapsed },
        by simp [process_document, henv, hocr, failedOutcome], Or.inr rfl,
        iff_of_false hfc (by simp [jobAllOk, henv, hocr]),
        fun hco => absurd hco hfc, fun _ => rfl, rfl⟩
    · rcases hcomp : env.composite with e | u
      · exact ⟨{ job_id := job_id, status := ("failed"),
                   error_message := some e, processing_time := some env.elapsed },
          by simp [process_document, henv, hocr, hcomp, failedOutcome], Or.inr rfl,
          iff_of_false hfc (by simp [jobAllOk, henv, hocr, hcomp]),
          fun hco => absurd hco hfc, fun _ => rfl, rfl⟩
      · cases u
        rcases hget : env.getsize with e | sz
        · exact ⟨{ job_id := job_id, status := ("failed"),
                     error_message := some e, processing_time := some env.elapsed },
            by simp [process_document, henv, hocr, hcomp, hget, failedOutcome],
            Or.inr rfl,
            iff_of_false hfc (by simp [jobAllOk, henv, hocr, hcomp, hget]),
            fun hco => absurd hco hfc, fun _ => rfl, rfl⟩
        · exact ⟨{ job_id := job_id, status := ("completed"),
                     error_message := none, processing_time := some env.elapsed },
            by simp [process_document, henv, hocr, hcomp, hget], Or.inl rfl,
            iff_of_true rfl (by simp [jobAllOk, henv, hocr, hcomp, hget]),
            fun _ => rfl, fun hf => absurd hf hcf, rfl⟩

/-- C2 witness: the amended theorem instantiated at the all-success
environment. -/
theorem c2_witness :
    ∃ c : UpdateCall,
      (process_document ("doc.pdf") ("job-1") envAllOk).statusWrites = [c]
      ∧ (c.status = ("completed") ∨ c.status = ("failed"))
      ∧ (c.status = ("completed") ↔ jobAllOk envAllOk = true)
      ∧ (c.status = ("completed") → envAllOk.composite = Except.ok ())
      ∧ (c.status = ("failed") → c.error_message.isSome = true)
      ∧ c.processing_time = some envAllOk.elapsed :=
  c2_status ("doc.pdf") ("job-1") envAllOk

/-- C3 counterexample: when the OCR call raises, the preprocessed derived
image is never removed (the `os.remove` sits after the tesseract call
with no `finally`), and a job that fails attempts no raster cleanup even
though an intermediate raster distinct from the input exists. -/
theorem c3_counterexample :
    (ocr_with_boxes (Except.error ("OcrEngineError: boom")) false).removeAttempted = false
    ∧ (process_document ("in.pdf") ("job-2") envOcrFails).removalsAttempted = ([] : List String)
    ∧ ((process_document ("in.pdf") ("job-2") envOcrFails).statusWrites.map UpdateCall.status)
      = [("failed")] :=
  ⟨rfl, rfl, rfl⟩

/-- C3 (amended): the preprocessed derived image's removal is attempted
iff the OCR call returns successfully (a failure of the removal itself is
swallowed and changes nothing), and the intermediate page rasters other
than the original input are removed only on the success path — a job that
fails at any stage attempts no raster cleanup. -/
theorem c3_cleanup (tess : Except String (List Detection)) (removeFails : Bool)
    (input_path job_id : String) (env : JobEnv) :
    ((ocr_with_boxes tess removeFails).removeAttempted = true ↔ ∃ ds, tess = Except.ok ds)
    ∧ ocr_with_boxes tess removeFails = ocr_with_boxes tess (!removeFails)
    ∧ (jobAllOk env = false → (process_document input_path job_id env).removalsAttempted = [])
    ∧ (∀ images, env.rasterize = Except.ok images → jobAllOk env = true →
        (process_document input_path job_id env).removalsAttempted
          = (images.filter (fun r => r.path ≠ input_path)).map (fun r => r.path)) := by
  refine ⟨?_, ?_, ?_, ?_⟩
  · cases tess with
    | error e => simp [ocr_with_boxes]
    | ok ds => simp [ocr_with_boxes]
  · cases tess <;> rfl
  · intro hno
    rcases henv : env.rasterize with e | images
    · simp [process_document, henv, failedOutcome]
    · rcases hocr : runOcrPages env.ocr images 0 with e | allBlocks
      · simp [process_document, henv, hocr, failedOutcome]
      · rcases hcomp : env.composite with e | u
        · simp [process_document, henv, hocr, hcomp, failedOutcome]
        · cases u
          rcases hget : env.getsize with e | sz
          · simp [process_document, henv, hocr, hcomp, hget, failedOutcome]
          · simp [jobAllOk, henv, hocr, hcomp, hget] at hno
  · intro images himg hok
    rcases hocr : runOcrPages env.ocr images 0 with e | allBlocks
    · simp [jobAllOk, himg, hocr] at hok
    · rcases hcomp : env.composite with e | u
      · simp [jobAllOk, himg, hocr, hcomp] at hok
      · cases u
        rcases hget : env.getsize with e | sz
        · simp [jobAllOk, himg, hocr, hcomp, hget] at hok
        · simp [process_document, himg, hocr, hcomp, hget]

/-- C3 witness: the amended theorem applied at the all-success
environment — exactly the non-input rasters are removed — and at a
successful OCR call — the derived image's removal is attempted. -/
theorem c3_witness :
    (process_document ("in.pdf") ("job-3") envAllOk).removalsAttempted
      = (([{ path := ("in_page_0.jpg"), width := 4, height := 5 }] : List PageRaster).filter
          (fun r => r.path ≠ ("in.pdf"))).map (fun r => r.path)
    ∧ (ocr_with_boxes (Except.ok []) false).removeAttempted = true :=
  ⟨(c3_cleanup (Except.ok []) false ("in.pdf") ("job-3") envAllOk).2.2.2
      [{ path := ("in_page_0.jpg"), width := 4, height := 5 }] rfl rfl,
    (c3_cleanup (Except.ok []) false ("in.pdf") ("job-3") envAllOk).1.mpr ⟨[], rfl⟩⟩

/-- C9: the non-PDF branch of `input_to_images` passes an image whose
largest dimension is within `max_dimension = 3000` through unchanged
(writing nothing), and otherwise writes a single resized JPEG copy using
the LANCZOS resampling filter, both dimensions scaled by the common
ratio `max_dimension / max(size)` (truncated), so the result's largest
dimension is at most `max_dimension`. -/
theorem c9_rasterizer (p : PageRaster) :
    (max p.width p.height ≤ max_dimension →
      input_to_images_image p = { images := [p], written := [], resampleUsed := none })
    ∧ (max_dimension < max p.width p.height →
      input_to_images_image p
          = { images := [{ path := p.path ++ ("_resized.jpg"),
                           width := scaledDim p.width (max p.width p.height),
                           height := scaledDim p.height (max p.width p.height) }],
              written := [p.path ++ ("_resized.jpg")],
              resampleUsed := some ("LANCZOS") }
        ∧ (∃ r : ℚ, 0 < r ∧ r < 1
            ∧ scaledDim p.width (max p.width p.height)
                = (Int.floor ((p.width : ℚ) * r)).toNat
            ∧ scaledDim p.height (max p.width p.height)
                = (Int.floor ((p.height : ℚ) * r)).toNat)
        ∧ max (scaledDim p.width (max p.width p.height))
              (scaledDim p.height (max p.width p.height)) ≤ max_dimension) := by
  constructor
  · intro h
    rw [input_to_images_image, if_neg (not_lt.mpr h)]
  · intro h
    have hm0 : (0:ℚ) < ((max p.width p.height : ℕ) : ℚ) := by
      have h1 : 0 < max p.width p.height :=
        lt_trans (by norm_num [max_dimension]) h
      exact_mod_cast h1
    have hcap : ((max_dimension : ℕ) : ℚ) < ((max p.width p.height : ℕ) : ℚ) := by
      exact_mod_cast h
    refine ⟨by rw [input_to_images_image, if_pos h],
      ⟨((max_dimension : ℕ) : ℚ) / ((max p.width p.height : ℕ) : ℚ),
        div_pos (by norm_num [max_dimension]) hm0,
        (div_lt_one hm0).mpr hcap, rfl, rfl⟩,
      max_le (scaledDim_le _ _ (le_max_left _ _) h)
        (scaledDim_le _ _ (le_max_right _ _) h)⟩

/-- C9 witness: the theorem applied to a 2000 by 1000 image (passed
through unchanged) and to a 6000 by 1500 image (single downscaled copy). -/
theorem c9_witness :
    input_to_images_image smallImage
        = { images := [smallImage], written := [], resampleUsed := none }
    ∧ (input_to_images_image bigImage
          = { images := [{ path := bigImage.path ++ ("_resized.jpg"),
                           width := scaledDim bigImage.width (max bigImage.width bigImage.height),
                           height := scaledDim bigImage.height (max bigImage.width bigImage.height) }],
              written := [bigImage.path ++ ("_resized.jpg")],
              resampleUsed := some ("LANCZOS") }
        ∧ (∃ r : ℚ, 0 < r ∧ r < 1
            ∧ scaledDim bigImage.width (max bigImage.width bigImage.height)
                = (Int.floor ((bigImage.width : ℚ) * r)).toNat
            ∧ scaledDim bigImage.height (max bigImage.width bigImage.height)
                = (Int.floor ((bigImage.height : ℚ) * r)).toNat)
        ∧ max (scaledDim bigImage.width (max bigImage.width bigImage.height))
              (scaledDim bigImage.height (max bigImage.width bigImage.height))
            ≤ max_dimension) :=
  ⟨(c9_rasterizer smallImage).1 (by decide), (c9_rasterizer bigImage).2 (by decide)⟩

/-- C10: `update_upload_status` never lets an exception escape — a
database failure is swallowed and the row is simply not stored — and
`process_document` still returns success while its terminal status write
silently failed to be stored. -/
theorem c10_status_swallow (c : UpdateCall) (db : Except String Unit) :
    (update_upload_status c db).raised = false
    ∧ ((update_upload_status c db).stored = true ↔ db = Except.ok ())
    ∧ (process_document ("in.pdf") ("job-4") envDbFails).returnValue = true
    ∧ (process_document ("in.pdf") ("job-4") envDbFails).statusStored = false := by
  refine ⟨?_, ?_, rfl, rfl⟩
  · cases db <;> rfl
  · cases db with
    | error e => simp [update_upload_status]
    | ok u =>
      cases u
      simp [update_upload_status]

end XNoteBook
